import Mathlib

/-!
Verification of the liveness-session orchestrator of the face-verification
repository.  The definitions below are a shallow embedding of the TypeScript
source: `src/src/components/LivenessVerification.tsx` (the "tsx" variant),
`src/unnamed/part_000` (the "p0" variant) and `src/src/utils/api.ts`.
Network calls, camera access and speech output are modelled as explicit
inputs/outputs; JavaScript truthiness on optional strings is modelled by
`truthy`.
-/

namespace FaceVerif

/-- JS truthiness of an optional string (`undefined`/`null`/`""` are falsy). -/
def truthy : Option String → Bool
  | none => false
  | some s => s ≠ ""

/-- JS `a || b` for an optional string `a` and a default `b`. -/
def orTruthy (a : Option String) (b : String) : String :=
  match a with
  | none => b
  | some s => if s = "" then b else s

/-- Case-sensitive: does `pat` occur at the head of `s`? -/
def matchesAt : List Char → List Char → Bool
  | [], _ => true
  | _ :: _, [] => false
  | p :: ps, c :: cs => (p = c) && matchesAt ps cs

/-- Case-insensitive (ASCII) variant of `matchesAt`, as used by a `/…/i` regex. -/
def matchesAtCI : List Char → List Char → Bool
  | [], _ => true
  | _ :: _, [] => false
  | p :: ps, c :: cs => (p.toLower = c.toLower) && matchesAtCI ps cs

/-- JS `String.prototype.includes` (case-sensitive substring test). -/
def listIncludes (pat : List Char) : List Char → Bool
  | [] => pat.isEmpty
  | c :: cs => matchesAt pat (c :: cs) || listIncludes pat cs

/-- JS `String.prototype.replace` with a case-insensitive regex without the `g`
flag: replace the first (leftmost) occurrence of `pat` by `repl`. -/
def replaceFirstCI (pat repl : List Char) : List Char → List Char
  | [] => []
  | c :: cs =>
    if matchesAtCI pat (c :: cs) then repl ++ (c :: cs).drop pat.length
    else c :: replaceFirstCI pat repl cs

/-- `getDisplayTask` from `LivenessVerification.tsx` lines 101-106: empty check,
then `.replace(/Look Left/i, "Look Right").replace(/Look Right/i, "Look Left")`. -/
def getDisplayTask (text : String) : String :=
  if text = "" then ""
  else
    String.mk (replaceFirstCI "Look Right".data "Look Left".data
      (replaceFirstCI "Look Left".data "Look Right".data text.data))

/-- `getVoiceText` from `LivenessVerification.tsx` lines 108-115 (the `part_000`
version, lines 65-71, is the same chain without the empty-string guard, which
is subsumed since the empty string contains none of the patterns). -/
def getVoiceText (displayTask : String) : String :=
  if displayTask = "" then ""
  else if listIncludes "Look Right".data displayTask.data then "Please look right"
  else if listIncludes "Look Left".data displayTask.data then "Please look left"
  else if listIncludes "Look Down".data displayTask.data then "Please look down"
  else if listIncludes "Close Eyes".data displayTask.data then "Please close your eyes"
  else ""

/-! ## Data model (`src/src/types/index.ts`) -/

/-- `current_task` descriptor of a `TaskStatus`. -/
structure CurrentTask where
  description : String := ""
  task : String := ""
  time_remaining : Nat := 0
  index : Nat := 0
  total : Nat := 0
deriving DecidableEq, Repr

/-- `result` descriptor of a `TaskStatus` (absent numeric fields defaulted). -/
structure TaskResult where
  final_result : Bool := false
  passed : Bool := false
  completed : Nat := 0
  total : Nat := 0
deriving DecidableEq, Repr

/-- The progress snapshot returned by the status poll and embedded in frame
responses (`TaskStatus` in `types/index.ts`; absent `active` is falsy). -/
structure TaskStatus where
  active : Bool := false
  completed_tasks : Nat := 0
  total_tasks : Nat := 0
  current_task : Option CurrentTask := none
  result : Option TaskResult := none
deriving DecidableEq, Repr

/-- A `process_frame` response (`DetectionResult` plus the untyped `error`
field that both variants test). -/
structure FrameResp where
  error : Option String := none
  face_detected : Bool := false
  task_session : Option TaskStatus := none
deriving DecidableEq, Repr

/-! ## Completion handler (`performFaceVerification`)

The tsx variant (lines 311-391): convert the reference image to a blob, POST
a `search` action, on `matched_user_id` report a match, otherwise POST an
`add` action under a fresh `User_<n>` name.  Network responses are inputs;
the sequence of attempted calls, the reported result, the surfaced error and
the utterances are the outputs. -/

/-- A `/faces` search response. -/
structure SearchResp where
  matched_user_id : Option String := none
  confidence : Option Nat := none
  user_name : Option String := none
deriving DecidableEq, Repr

/-- The `data` member of a `/faces` add response. -/
structure AddRespData where
  person_id : Option String := none
deriving DecidableEq, Repr

/-- A `/faces` add response. -/
structure AddResp where
  data : Option AddRespData := none
deriving DecidableEq, Repr

/-- Environment of one completion-handler invocation: the two possible network
round trips (`Except.error` models a thrown/rejected request). -/
structure FaceEnv where
  searchResp : Except String SearchResp
  addResp : Except String AddResp

/-- Tag of a network call made by the completion handler. -/
inductive FaceCall where
  | search
  | add
deriving DecidableEq, Repr

/-- `data` member of `FaceVerificationResult`. -/
structure FVData where
  vectorId : String := ""
  confidence : Nat := 0
  userName : String := ""
deriving DecidableEq, Repr

/-- `FaceVerificationResult` from `types/index.ts`. -/
structure FaceVerificationResult where
  success : Bool := false
  matchFound : Bool := false
  isNewUser : Bool := false
  data : FVData := {}
deriving DecidableEq, Repr

/-- Observable outcome of one `performFaceVerification` invocation. -/
structure FaceOutcome where
  calls : List FaceCall := []
  result : Option FaceVerificationResult := none
  error : Option String := none
  spoken : List String := []
deriving DecidableEq, Repr

/-- `performFaceVerification` from `LivenessVerification.tsx` lines 311-391.
`img` is `capturedImageRef.current`, `seed` the random number used for the
fresh display name, `env` the network responses. -/
def performFaceVerification (img : Option String) (seed : Nat) (env : FaceEnv) :
    FaceOutcome :=
  if truthy img = false then {}
  else
    match env.searchResp with
    | Except.error e =>
      { calls := [FaceCall.search], result := none,
        error := some ("Face verification failed: " ++ e),
        spoken := ["Processing face verification", "Face verification failed"] }
    | Except.ok sd =>
      if truthy sd.matched_user_id then
        { calls := [FaceCall.search],
          result := some
            { success := true, matchFound := true, isNewUser := false,
              data :=
                { vectorId := sd.matched_user_id.getD "",
                  confidence := sd.confidence.getD 0,
                  userName := orTruthy sd.user_name "Existing User" } },
          error := none,
          spoken := ["Processing face verification", "Face already exists"] }
      else
        match env.addResp with
        | Except.error e =>
          { calls := [FaceCall.search, FaceCall.add], result := none,
            error := some ("Face verification failed: " ++ e),
            spoken := ["Processing face verification", "Face verification failed"] }
        | Except.ok ad =>
          { calls := [FaceCall.search, FaceCall.add],
            result := some
              { success := true, matchFound := false, isNewUser := true,
                data :=
                  { vectorId := (ad.data.bind AddRespData.person_id).getD "",
                    confidence := 1,
                    userName := "User_" ++ toString seed } },
            error := none,
            spoken := ["Processing face verification", "Face registered successfully"] }

/-! ## The consolidated orchestrator machine

One attempt of the orchestrator, as a deterministic step function over
externally scheduled events.  Fields mirror the refs/state of the two
variants (`processingFrameRef`, `verificationTriggeredRef`/
`faceVerificationTriggeredRef`, `capturedImageRef`, `lastFrameTimeRef`,
`statusIntervalRef`, the frame interval / `isStreaming`, …).  `faceRuns`,
`framesSubmitted`, `inFlight` and `passedSeen` are ghost instrumentation:
they only count, respectively, completion-handler invocations that reach the
network, started frame submissions, outstanding frame submissions, and
whether a terminal judgment with `final_result = true` has been observed. -/

structure MState where
  sessionId : Option String := none
  verificationTriggered : Bool := false
  capturedImage : Option String := none
  processingFrame : Bool := false
  lastFrameTime : Nat := 0
  statusPolling : Bool := false
  frameLoopActive : Bool := false
  isTaskActive : Bool := false
  verificationComplete : Bool := false
  disabled : Bool := false
  taskStatus : Option TaskStatus := none
  detectionResult : Option FrameResp := none
  taskText : String := ""
  timer : String := ""
  error : Option String := none
  pendingFaceVerify : Bool := false
  faceRuns : Nat := 0
  framesSubmitted : Nat := 0
  inFlight : Nat := 0
  passedSeen : Bool := false
deriving DecidableEq, Repr

/-- `performFaceVerification` of `part_000` (lines 74-141) at the machine
level: no-op without a reference image, no-op when the one-shot latch is
already set, otherwise set the latch and perform the search/enroll network
step (abstracted to the `faceRuns` counter). -/
def performFaceVerificationLatched (s : MState) : MState :=
  if truthy s.capturedImage = false then s
  else if s.verificationTriggered then s
  else { s with verificationTriggered := true, faceRuns := s.faceRuns + 1 }

/-- `performFaceVerification` of `LivenessVerification.tsx` (lines 311-391) at
the machine level: this variant has no internal latch (its caller sets the
latch first); no-op without a reference image, otherwise the network step. -/
def performFaceVerificationUnlatched (s : MState) : MState :=
  if truthy s.capturedImage = false then s
  else { s with faceRuns := s.faceRuns + 1 }

/-- The response handling of `updateTaskStatus` (`LivenessVerification.tsx`
lines 278-304): record the snapshot; on a terminal snapshot
(`!status.active && status.result`) stop polling and, if the judgment passed
and the latch is clear, set the latch and run the completion handler. -/
def updateTaskStatusApply (s : MState) (status : TaskStatus) : MState :=
  let s1 := { s with taskStatus := some status }
  if status.active then s1
  else
    match status.result with
    | none => s1
    | some r =>
      let s2 := { s1 with statusPolling := false, isTaskActive := false,
                          verificationComplete := true }
      if r.final_result && !s2.verificationTriggered then
        performFaceVerificationUnlatched
          { s2 with verificationTriggered := true, passedSeen := true }
      else s2

/-- `updateTaskStatus` from `LivenessVerification.tsx` lines 266-308 (the
polling path): early-return without a session or once the latch is set;
`resp = none` models a failed poll (the catch only logs). -/
def updateTaskStatus (s : MState) (resp : Option TaskStatus) : MState :=
  if !truthy s.sessionId || s.verificationTriggered then s
  else
    match resp with
    | none => s
    | some status => updateTaskStatusApply s status

/-- The guard-and-submit half of `captureAndProcessFrame` from `part_000`
lines 176-193: skip when there is no session, the capture source is not
ready, a submission is in flight, or the 50 ms throttle has not elapsed;
otherwise mark busy, stamp the time and start a submission. -/
def captureAndProcessFrameBegin (s : MState) (ready : Bool) (now : Nat) : MState :=
  if !truthy s.sessionId then s
  else if !ready then s
  else if s.processingFrame then s
  else if now - s.lastFrameTime < 50 then s
  else
    { s with processingFrame := true, lastFrameTime := now,
             framesSubmitted := s.framesSubmitted + 1, inFlight := s.inFlight + 1 }

/-- The active-task branch inside `captureAndProcessFrame` of `part_000`
(lines 214-221): on `task_session?.active && task_session?.current_task`,
mark the task active and show its description and remaining time. -/
def frameActiveBranch (s : MState) (ts : TaskStatus) : MState :=
  match ts.current_task with
  | some ct =>
    if ts.active then
      { s with isTaskActive := true, taskText := ct.description,
               timer := "Time left: " ++ toString ct.time_remaining ++ "s" }
    else s
  | none => s

/-- The completion branch inside `captureAndProcessFrame` of `part_000`
(lines 223-252): on `task_session && !task_session.active &&
task_session.result`, stop the loop and, when `final_result` is true,
schedule the completion handler (the `setTimeout` at line 244, modelled by
`pendingFaceVerify`; `passedSeen` is the ghost observation marker). -/
def frameTerminalBranch (s : MState) (ts : TaskStatus) : MState :=
  if !ts.active && ts.result.isSome then
    let sC := { s with verificationComplete := true, statusPolling := false,
                       isTaskActive := false, disabled := false,
                       frameLoopActive := false, taskText := "", timer := "" }
    match ts.result with
    | some res =>
      if res.final_result then
        { sC with pendingFaceVerify := true, passedSeen := true }
      else sC
    | none => sC
  else s

/-- The `response.error` branch inside `captureAndProcessFrame` of `part_000`
(lines 200-208): an `Invalid session_id` error is fatal, any other reported
error is surfaced as-is. -/
def frameErrorBranch (s : MState) (e : String) : MState :=
  if listIncludes "Invalid session_id".data e.data then
    { s with error := some "Session expired. Restart camera.",
             frameLoopActive := false, disabled := false }
  else { s with error := some e }

/-- The success branch inside `captureAndProcessFrame` of `part_000`
(lines 209-252): record the detection result, clear the error, then apply the
active-task and completion checks. -/
def frameOkBranch (s : MState) (r : FrameResp) : MState :=
  let sA := { s with detectionResult := some r, error := none }
  match r.task_session with
  | some ts => frameTerminalBranch (frameActiveBranch sA ts) ts
  | none => sA

/-- The response-handling half of `captureAndProcessFrame` from `part_000`
lines 195-258, applied when an in-flight submission completes.  `resp = none`
models a thrown/failed submission (the catch only logs).  The `finally`
clears the busy flag in every branch. -/
def captureAndProcessFrameFinish (s : MState) (resp : Option FrameResp) : MState :=
  if s.inFlight = 0 then s
  else
    let s0 := { s with inFlight := s.inFlight - 1 }
    let s1 :=
      match resp with
      | none => s0
      | some r =>
        if truthy r.error then frameErrorBranch s0 (r.error.getD "")
        else frameOkBranch s0 r
    { s1 with processingFrame := false }

/-- `handleReset` from `LivenessVerification.tsx` lines 459-475 on the
machine fields: clears the latch, the reference image, the tracked status and
the attempt flags (the session identifier is kept; a remote reset is sent). -/
def handleResetM (s : MState) : MState :=
  { s with verificationTriggered := false, capturedImage := none,
           taskStatus := none, verificationComplete := false,
           isTaskActive := false, error := none }

/-- Externally scheduled events of one orchestrator instance: a capture tick,
the completion of an in-flight frame submission, a status-poll response, the
delayed completion-handler timeout, and a user reset. -/
inductive MEvent where
  | tick (ready : Bool) (now : Nat)
  | frameDone (resp : Option FrameResp)
  | poll (resp : Option TaskStatus)
  | faceVerifyTimeout
  | reset
deriving DecidableEq, Repr

/-- One machine step. -/
def stepM (s : MState) : MEvent → MState
  | MEvent.tick ready now => captureAndProcessFrameBegin s ready now
  | MEvent.frameDone resp => captureAndProcessFrameFinish s resp
  | MEvent.poll resp => updateTaskStatus s resp
  | MEvent.faceVerifyTimeout =>
    if s.pendingFaceVerify then
      performFaceVerificationLatched { s with pendingFaceVerify := false }
    else s
  | MEvent.reset => handleResetM s

/-- Run the machine over a list of events. -/
def runM (s : MState) (evs : List MEvent) : MState :=
  evs.foldl stepM s

/-- Does the snapshot contain a terminal judgment with `final_result = true`? -/
def statusTerminalPassed (ts : TaskStatus) : Bool :=
  !ts.active && (match ts.result with | some r => r.final_result | none => false)

/-- Does the snapshot contain a terminal judgment with `final_result = false`? -/
def statusTerminalFailed (ts : TaskStatus) : Bool :=
  !ts.active && (match ts.result with | some r => !r.final_result | none => false)

/-- Does the event deliver a snapshot containing a terminal judgment with
`final_result = true`? -/
def evTerminalPassed : MEvent → Bool
  | MEvent.poll (some ts) => statusTerminalPassed ts
  | MEvent.frameDone (some r) =>
    match r.task_session with
    | some ts => statusTerminalPassed ts
    | none => false
  | _ => false

/-- Does the event deliver a snapshot containing a terminal judgment with
`final_result = false`? -/
def evTerminalFailed : MEvent → Bool
  | MEvent.poll (some ts) => statusTerminalFailed ts
  | MEvent.frameDone (some r) =>
    match r.task_session with
    | some ts => statusTerminalFailed ts
    | none => false
  | _ => false

/-! ## Invariants -/

/-- Attempt invariant for the completion handler: the network step has run at
most once, never without the latch, and never before a passed terminal
judgment was observed. -/
def C1Inv (s : MState) : Prop :=
  (s.verificationTriggered = false → s.faceRuns = 0) ∧
  s.faceRuns ≤ 1 ∧
  (s.passedSeen = false → s.faceRuns = 0 ∧ s.pendingFaceVerify = false)

/-- Scheduler invariant: the number of outstanding frame submissions is
exactly the busy flag. -/
def SchedInv (s : MState) : Prop :=
  s.inFlight = (if s.processingFrame then 1 else 0)

/-! ## tsx-variant frame completion and attempt start -/

/-- The response-handling half of `captureAndProcessFrame` from
`LivenessVerification.tsx` lines 247-262: a thrown submission
(`resp = none`, covering `!response.ok` and network errors) sets the
user-visible "Frame processing failed" message; a reported `result.error` is
surfaced as-is; the `finally` clears the busy flag in every branch. -/
def captureAndProcessFrameFinishTsx (s : MState) (resp : Option FrameResp) : MState :=
  if s.inFlight = 0 then s
  else
    let s0 := { s with inFlight := s.inFlight - 1 }
    let s1 :=
      match resp with
      | none => { s0 with error := some "Frame processing failed" }
      | some r =>
        if truthy r.error then { s0 with error := r.error }
        else { s0 with detectionResult := some r, error := none }
    { s1 with processingFrame := false }

/-- A `/session` create response. -/
structure SessionResp where
  success : Bool := false
  session_id : Option String := none
  message : Option String := none
deriving DecidableEq, Repr

/-- A `/liveness/<id>` start response. -/
structure LivenessStartResp where
  success : Bool := false
  message : Option String := none
deriving DecidableEq, Repr

/-- Environment of `handleStart` (tsx): the create-session round trip
(`Except.error` = thrown fetch) and whether camera access succeeds. -/
structure StartEnv where
  sessionResp : Except String SessionResp
  cameraOk : Bool

/-- Environment of `startLiveness` (`part_000`): additionally the
challenge-start round trip. -/
structure LStartEnv where
  sessionResp : Except String SessionResp
  cameraOk : Bool
  livenessResp : Except String LivenessStartResp

/-- Outcome of an attempt start: the resulting state plus whether camera
access was requested, the frame loop was started, and the challenge was
started. -/
structure StartOutcome where
  state : MState
  cameraRequested : Bool := false
  frameLoopStarted : Bool := false
  challengeStarted : Bool := false
deriving DecidableEq, Repr

/-- `createSession` from `LivenessVerification.tsx` lines 118-138: succeed
only on `data.success && data.session_id` (JS truthiness), otherwise surface
`data.message || "Failed to create session"`; a thrown fetch surfaces
`"Failed to create session: " + err.message`. -/
def createSession (s : MState) (resp : Except String SessionResp) : MState × Bool :=
  match resp with
  | Except.error e =>
    ({ s with error := some ("Failed to create session: " ++ e) }, false)
  | Except.ok d =>
    if d.success && truthy d.session_id then
      ({ s with sessionId := d.session_id }, true)
    else
      ({ s with error := some (orTruthy d.message "Failed to create session") }, false)

/-- `handleStart` from `LivenessVerification.tsx` lines 440-456: clear the
error, create the session, abort if that failed; only then request the
camera (ending the session again if the camera fails); on success start
streaming and the frame interval. -/
def handleStart (s : MState) (env : StartEnv) : StartOutcome :=
  match createSession { s with error := none } env.sessionResp with
  | (s1, false) => { state := s1 }
  | (s1, true) =>
    if env.cameraOk then
      { state := { s1 with frameLoopActive := true },
        cameraRequested := true, frameLoopStarted := true }
    else
      { state := { s1 with
          error := some "Camera access denied. Please grant permissions.",
          sessionId := none },
        cameraRequested := true }

/-- `startLiveness` from `part_000` lines 288-350: reset the attempt flags,
create the session and throw only on `!sRes.success` (the identifier is
stored unchecked), then request the camera, capture the reference image,
and start the challenge; any throw lands in the catch which surfaces
`"Error: " + message`. -/
def startLiveness (s : MState) (env : LStartEnv) : StartOutcome :=
  let s0 : MState :=
    { s with disabled := true, error := none,
             verificationTriggered := false, verificationComplete := false,
             isTaskActive := false, taskText := "", timer := "" }
  match env.sessionResp with
  | Except.error e =>
    { state := { s0 with error := some ("Error: " ++ e), disabled := false,
                         frameLoopActive := false } }
  | Except.ok sRes =>
    if sRes.success = false then
      { state := { s0 with error := some "Error: Failed to create session",
                           disabled := false, frameLoopActive := false } }
    else
      let s1 : MState := { s0 with sessionId := sRes.session_id }
      if env.cameraOk = false then
        { state := { s1 with error := some "Camera access denied",
                             disabled := false },
          cameraRequested := true }
      else
        let s2 : MState := { s1 with capturedImage := some "reference-image" }
        match env.livenessResp with
        | Except.error e =>
          { state := { s2 with error := some ("Error: " ++ e), disabled := false,
                               frameLoopActive := false },
            cameraRequested := true }
        | Except.ok lRes =>
          if lRes.success = false then
            { state := { s2 with
                error := some ("Error: " ++ orTruthy lRes.message "Failed to start liveness"),
                disabled := false, frameLoopActive := false },
              cameraRequested := true }
          else
            { state := { s2 with frameLoopActive := true },
              cameraRequested := true, challengeStarted := true }

/-- Did the create-session round trip succeed with a (truthy) identifier?
(The tsx guard, `data.success && data.session_id`.) -/
def sessionRespOkWithId : Except String SessionResp → Bool
  | Except.error _ => false
  | Except.ok d => d.success && truthy d.session_id

/-- Did the create-session round trip report success at all?  (The `part_000`
guard, `sRes.success`, which ignores the identifier.) -/
def sessionRespSuccess : Except String SessionResp → Bool
  | Except.error _ => false
  | Except.ok d => d.success

/-! ## tsx render model: task display and speech de-duplication

`LivenessVerification.tsx` speaks via the effect at lines 490-496, whose
dependency is `taskStatus?.current_task?.description`: the effect re-runs
only when the remembered description changes between renders (`prevDesc`).
`handleReset` (lines 459-475) clears the attempt state; the subsequent
render updates the remembered description to `none`. -/

structure TsxUI where
  taskStatus : Option TaskStatus := none
  prevDesc : Option String := none
  spokenLog : List String := []
  verificationTriggered : Bool := false
  capturedImage : Option String := none
  isTaskActive : Bool := false
  verificationComplete : Bool := false
  faceResult : Option FaceVerificationResult := none
  error : Option String := none
deriving DecidableEq, Repr

/-- The effect dependency `taskStatus?.current_task?.description`. -/
def taskDesc (ts : Option TaskStatus) : Option String :=
  ts.bind fun t => t.current_task.map fun ct => ct.description

/-- The speech effect (tsx lines 490-496): when the dependency changed,
remember it and, if the status holds an active current task whose mirrored
description maps to a voice prompt, speak that prompt. -/
def speechEffect (u : TsxUI) : TsxUI :=
  let d := taskDesc u.taskStatus
  if d = u.prevDesc then u
  else
    let u1 : TsxUI := { u with prevDesc := d }
    match u.taskStatus with
    | some ts =>
      match ts.current_task with
      | some ct =>
        if ts.active then
          let v := getVoiceText (getDisplayTask ct.description)
          if v = "" then u1 else { u1 with spokenLog := u1.spokenLog ++ [v] }
        else u1
      | none => u1
    | none => u1

/-- `setTaskStatus` followed by the speech effect of the render. -/
def setTaskStatusRender (u : TsxUI) (ts : TaskStatus) : TsxUI :=
  speechEffect { u with taskStatus := some ts }

/-- `handleReset` (tsx lines 459-475) followed by the render speech
effect. -/
def handleResetRender (u : TsxUI) : TsxUI :=
  speechEffect
    { u with verificationTriggered := false, capturedImage := none,
             taskStatus := none, verificationComplete := false, faceResult := none,
             isTaskActive := false, error := none }

/-! ## Concrete inputs for witnesses and counterexamples -/

/-- A state mid-attempt: session and reference image present, loops running. -/
def startedState : MState :=
  { sessionId := some "sid-1", capturedImage := some "img",
    statusPolling := true, frameLoopActive := true, isTaskActive := true }

/-- A terminal snapshot with `final_result = true`. -/
def terminalPassedStatus : TaskStatus :=
  { active := false, result := some { final_result := true, passed := true } }

/-- A terminal snapshot with `final_result = false`. -/
def terminalFailedStatus : TaskStatus :=
  { active := false, result := some { final_result := false } }

/-- `startedState` with one submission in flight. -/
def inFlightState : MState :=
  { startedState with processingFrame := true, inFlight := 1 }

/-- Create-session response that succeeds without an identifier. -/
def noIdEnv : LStartEnv :=
  { sessionResp := Except.ok { success := true, session_id := none },
    cameraOk := true, livenessResp := Except.ok { success := true } }

/-- A failed create-session response (tsx attempt). -/
def failStartEnv : StartEnv :=
  { sessionResp := Except.ok { success := false, message := some "no capacity" },
    cameraOk := true }

/-- A thrown create-session request (`part_000` attempt). -/
def failLStartEnv : LStartEnv :=
  { sessionResp := Except.error "network down", cameraOk := true,
    livenessResp := Except.ok { success := true } }

/-- An active task whose description maps to no voice prompt. -/
def blinkStatus : TaskStatus :=
  { active := true, current_task := some { description := "Blink your eyes" } }

/-- The current task of `lookDownStatus`. -/
def lookDownTask : CurrentTask :=
  { description := "Look Down", time_remaining := 5 }

/-- An active task whose description maps to a voice prompt. -/
def lookDownStatus : TaskStatus :=
  { active := true, current_task := some lookDownTask }

/-- Search response with a match. -/
def matchedEnv : FaceEnv :=
  { searchResp := Except.ok
      { matched_user_id := some "uid-9", confidence := some 87,
        user_name := some "Alice" },
    addResp := Except.ok { data := some { person_id := some "pid-1" } } }

/-- Search response without a match, enrollment succeeding. -/
def unmatchedEnv : FaceEnv :=
  { searchResp := Except.ok { matched_user_id := none },
    addResp := Except.ok { data := some { person_id := some "pid-2" } } }

end FaceVerif

namespace FaceVerif

/-! ## First sanity theorems -/

/-- C2: evaluating `getDisplayTask` on the two directional descriptions.  The
two sequential first-occurrence replaces cancel on "Look Left" (it is first
rewritten to "Look Right" and then immediately rewritten back), so both
directions end at "Look Left": the left/right mirroring promised by the comment
on the function does not happen. -/
theorem C2_mirror_bug_eval :
    getDisplayTask "Look Left" = "Look Left" ∧
    getDisplayTask "Look Right" = "Look Left" ∧
    getDisplayTask "Look Down" = "Look Down" := by
  decide

/-- C10: when no reference image was captured, the completion handler is a
no-op: no network call, no result, no surfaced error, no utterance. -/
theorem C10_no_image_noop (seed : Nat) (env : FaceEnv) :
    performFaceVerification none seed env =
      { calls := [], result := none, error := none, spoken := [] } := by
  rfl

/-! ## Step lemmas for the machine invariants -/

@[simp] theorem frameActiveBranch_ghost (s : MState) (ts : TaskStatus) :
    (frameActiveBranch s ts).verificationTriggered = s.verificationTriggered ∧
    (frameActiveBranch s ts).faceRuns = s.faceRuns ∧
    (frameActiveBranch s ts).passedSeen = s.passedSeen ∧
    (frameActiveBranch s ts).pendingFaceVerify = s.pendingFaceVerify ∧
    (frameActiveBranch s ts).inFlight = s.inFlight ∧
    (frameActiveBranch s ts).processingFrame = s.processingFrame ∧
    (frameActiveBranch s ts).framesSubmitted = s.framesSubmitted := by
  unfold frameActiveBranch
  split
  · split <;> simp
  · simp

@[simp] theorem frameTerminalBranch_ghost (s : MState) (ts : TaskStatus) :
    (frameTerminalBranch s ts).verificationTriggered = s.verificationTriggered ∧
    (frameTerminalBranch s ts).faceRuns = s.faceRuns ∧
    (frameTerminalBranch s ts).inFlight = s.inFlight ∧
    (frameTerminalBranch s ts).processingFrame = s.processingFrame ∧
    (frameTerminalBranch s ts).framesSubmitted = s.framesSubmitted := by
  unfold frameTerminalBranch
  split
  · split
    · split <;> simp
    · simp
  · simp

theorem frameTerminalBranch_passedSeen (s : MState) (ts : TaskStatus) :
    (frameTerminalBranch s ts).passedSeen = true →
    s.passedSeen = true ∨ statusTerminalPassed ts = true := by
  unfold frameTerminalBranch statusTerminalPassed
  split
  · rename_i hcond
    split
    · rename_i r hres
      split
      · rename_i hfin
        intro _
        right
        simp_all
      · simp_all
    · simp_all
  · intro h
    exact Or.inl h

theorem frameTerminalBranch_passedSeen_mono (s : MState) (ts : TaskStatus)
    (h : s.passedSeen = true) : (frameTerminalBranch s ts).passedSeen = true := by
  unfold frameTerminalBranch
  split
  · split
    · split <;> simp_all
    · simp_all
  · exact h

theorem frameTerminalBranch_pending (s : MState) (ts : TaskStatus) :
    (frameTerminalBranch s ts).pendingFaceVerify = true →
    s.pendingFaceVerify = true ∨ (frameTerminalBranch s ts).passedSeen = true := by
  unfold frameTerminalBranch
  split
  · split
    · split <;> simp_all
    · simp_all
  · exact fun h => Or.inl h

@[simp] theorem frameErrorBranch_ghost (s : MState) (e : String) :
    (frameErrorBranch s e).verificationTriggered = s.verificationTriggered ∧
    (frameErrorBranch s e).faceRuns = s.faceRuns ∧
    (frameErrorBranch s e).passedSeen = s.passedSeen ∧
    (frameErrorBranch s e).pendingFaceVerify = s.pendingFaceVerify ∧
    (frameErrorBranch s e).inFlight = s.inFlight ∧
    (frameErrorBranch s e).processingFrame = s.processingFrame ∧
    (frameErrorBranch s e).framesSubmitted = s.framesSubmitted := by
  unfold frameErrorBranch
  split <;> simp

@[simp] theorem frameOkBranch_ghost (s : MState) (r : FrameResp) :
    (frameOkBranch s r).verificationTriggered = s.verificationTriggered ∧
    (frameOkBranch s r).faceRuns = s.faceRuns ∧
    (frameOkBranch s r).inFlight = s.inFlight ∧
    (frameOkBranch s r).processingFrame = s.processingFrame ∧
    (frameOkBranch s r).framesSubmitted = s.framesSubmitted := by
  unfold frameOkBranch
  split
  · rename_i ts _
    have ha := frameActiveBranch_ghost { s with detectionResult := some r, error := none } ts
    have ht := frameTerminalBranch_ghost
      (frameActiveBranch { s with detectionResult := some r, error := none } ts) ts
    simp only [ht.1, ht.2.1, ht.2.2.1, ht.2.2.2.1, ht.2.2.2.2,
      ha.1, ha.2.1, ha.2.2.2.2.1, ha.2.2.2.2.2.1, ha.2.2.2.2.2.2]
    simp
  · simp

theorem frameOkBranch_passedSeen (s : MState) (r : FrameResp) :
    (frameOkBranch s r).passedSeen = true →
    s.passedSeen = true ∨
      (match r.task_session with
       | some ts => statusTerminalPassed ts
       | none => false) = true := by
  unfold frameOkBranch
  split
  · rename_i ts _
    intro h
    rcases frameTerminalBranch_passedSeen _ ts h with h1 | h1
    · have ha := frameActiveBranch_ghost { s with detectionResult := some r, error := none } ts
      rw [ha.2.2.1] at h1
      simp at h1
      exact Or.inl h1
    · exact Or.inr h1
  · intro h
    simp at h
    exact Or.inl h

theorem frameOkBranch_passedSeen_mono (s : MState) (r : FrameResp)
    (h : s.passedSeen = true) : (frameOkBranch s r).passedSeen = true := by
  unfold frameOkBranch
  split
  · rename_i ts _
    apply frameTerminalBranch_passedSeen_mono
    have ha := frameActiveBranch_ghost { s with detectionResult := some r, error := none } ts
    rw [ha.2.2.1]
    simpa using h
  · simpa using h

theorem frameOkBranch_pending (s : MState) (r : FrameResp) :
    (frameOkBranch s r).pendingFaceVerify = true →
    s.pendingFaceVerify = true ∨ (frameOkBranch s r).passedSeen = true := by
  unfold frameOkBranch
  split
  · rename_i ts _
    intro h
    rcases frameTerminalBranch_pending _ ts h with h1 | h1
    · have ha := frameActiveBranch_ghost { s with detectionResult := some r, error := none } ts
      rw [ha.2.2.2.1] at h1
      simp at h1
      exact Or.inl h1
    · exact Or.inr h1
  · intro h
    simp at h
    exact Or.inl h

theorem finish_ghost (s : MState) (resp : Option FrameResp) :
    (captureAndProcessFrameFinish s resp).verificationTriggered = s.verificationTriggered ∧
    (captureAndProcessFrameFinish s resp).faceRuns = s.faceRuns ∧
    (captureAndProcessFrameFinish s resp).framesSubmitted = s.framesSubmitted := by
  unfold captureAndProcessFrameFinish
  split
  · simp
  · cases resp with
    | none => simp
    | some r => by_cases he : truthy r.error <;> simp [he]

theorem finish_busy (s : MState) (resp : Option FrameResp) (h : s.inFlight ≠ 0) :
    (captureAndProcessFrameFinish s resp).processingFrame = false ∧
    (captureAndProcessFrameFinish s resp).inFlight = s.inFlight - 1 := by
  unfold captureAndProcessFrameFinish
  split
  · omega
  · cases resp with
    | none => simp
    | some r => by_cases he : truthy r.error <;> simp [he]

theorem finish_inFlight_zero (s : MState) (resp : Option FrameResp)
    (h : s.inFlight = 0) : captureAndProcessFrameFinish s resp = s := by
  unfold captureAndProcessFrameFinish
  split
  · rfl
  · omega

theorem finish_passedSeen (s : MState) (resp : Option FrameResp) :
    (captureAndProcessFrameFinish s resp).passedSeen = true →
    s.passedSeen = true ∨ evTerminalPassed (MEvent.frameDone resp) = true := by
  unfold captureAndProcessFrameFinish
  split
  · exact fun h => Or.inl h
  · cases resp with
    | none =>
      intro h
      simp at h
      exact Or.inl h
    | some r =>
      by_cases he : truthy r.error
      · intro h
        simp [he] at h
        exact Or.inl h
      · intro h
        simp [he] at h
        rcases frameOkBranch_passedSeen _ r h with h1 | h1
        · simp at h1
          exact Or.inl h1
        · right
          simpa [evTerminalPassed] using h1

theorem finish_passedSeen_mono (s : MState) (resp : Option FrameResp)
    (h : s.passedSeen = true) :
    (captureAndProcessFrameFinish s resp).passedSeen = true := by
  unfold captureAndProcessFrameFinish
  split
  · exact h
  · cases resp with
    | none => simpa using h
    | some r =>
      by_cases he : truthy r.error
      · simp [he, h]
      · simp only [he, Bool.false_eq_true, if_false]
        have := frameOkBranch_passedSeen_mono
          { s with inFlight := s.inFlight - 1 } r (by simpa using h)
        simpa using this

theorem finish_pending (s : MState) (resp : Option FrameResp) :
    (captureAndProcessFrameFinish s resp).pendingFaceVerify = true →
    s.pendingFaceVerify = true ∨
      (captureAndProcessFrameFinish s resp).passedSeen = true := by
  unfold captureAndProcessFrameFinish
  split
  · exact fun h => Or.inl h
  · cases resp with
    | none =>
      intro h
      simp at h
      exact Or.inl h
    | some r =>
      by_cases he : truthy r.error
      · intro h
        simp [he] at h
        exact Or.inl h
      · intro h
        simp [he] at h ⊢
        rcases frameOkBranch_pending _ r h with h1 | h1
        · simp at h1
          exact Or.inl h1
        · exact Or.inr h1

@[simp] theorem begin_ghost (s : MState) (ready : Bool) (now : Nat) :
    (captureAndProcessFrameBegin s ready now).verificationTriggered = s.verificationTriggered ∧
    (captureAndProcessFrameBegin s ready now).faceRuns = s.faceRuns ∧
    (captureAndProcessFrameBegin s ready now).passedSeen = s.passedSeen ∧
    (captureAndProcessFrameBegin s ready now).pendingFaceVerify = s.pendingFaceVerify := by
  unfold captureAndProcessFrameBegin
  split_ifs <;> simp

theorem begin_busy_id (s : MState) (ready : Bool) (now : Nat)
    (h : s.processingFrame = true) :
    captureAndProcessFrameBegin s ready now = s := by
  unfold captureAndProcessFrameBegin
  split_ifs <;> simp_all

theorem begin_notready_id (s : MState) (now : Nat) :
    captureAndProcessFrameBegin s false now = s := by
  unfold captureAndProcessFrameBegin
  split_ifs <;> simp_all

theorem begin_schedinv (s : MState) (ready : Bool) (now : Nat)
    (h : SchedInv s) : SchedInv (captureAndProcessFrameBegin s ready now) := by
  unfold captureAndProcessFrameBegin
  split_ifs with h1 h2 h3 h4
  · exact h
  · exact h
  · exact h
  · exact h
  · unfold SchedInv at h ⊢
    simp only [Bool.not_eq_true] at h3
    simp [h3] at h
    simp [h]

@[simp] theorem perfUnlatched_ghost (s : MState) :
    (performFaceVerificationUnlatched s).processingFrame = s.processingFrame ∧
    (performFaceVerificationUnlatched s).inFlight = s.inFlight ∧
    (performFaceVerificationUnlatched s).framesSubmitted = s.framesSubmitted ∧
    (performFaceVerificationUnlatched s).pendingFaceVerify = s.pendingFaceVerify ∧
    (performFaceVerificationUnlatched s).passedSeen = s.passedSeen ∧
    (performFaceVerificationUnlatched s).verificationTriggered = s.verificationTriggered := by
  unfold performFaceVerificationUnlatched
  split_ifs <;> simp

@[simp] theorem perfLatched_ghost (s : MState) :
    (performFaceVerificationLatched s).processingFrame = s.processingFrame ∧
    (performFaceVerificationLatched s).inFlight = s.inFlight ∧
    (performFaceVerificationLatched s).framesSubmitted = s.framesSubmitted ∧
    (performFaceVerificationLatched s).pendingFaceVerify = s.pendingFaceVerify ∧
    (performFaceVerificationLatched s).passedSeen = s.passedSeen := by
  unfold performFaceVerificationLatched
  split_ifs <;> simp

@[simp] theorem utsApply_ghost (s : MState) (status : TaskStatus) :
    (updateTaskStatusApply s status).processingFrame = s.processingFrame ∧
    (updateTaskStatusApply s status).inFlight = s.inFlight ∧
    (updateTaskStatusApply s status).framesSubmitted = s.framesSubmitted ∧
    (updateTaskStatusApply s status).pendingFaceVerify = s.pendingFaceVerify := by
  unfold updateTaskStatusApply
  by_cases ha : status.active
  · simp [ha]
  · rcases hres : status.result with _ | r
    · simp [ha, hres]
    · simp only [ha, hres]
      split_ifs <;> simp

theorem utsApply_c1inv (s : MState) (status : TaskStatus)
    (htrig : s.verificationTriggered = false) (h : C1Inv s) :
    C1Inv (updateTaskStatusApply s status) := by
  obtain ⟨h1, h2, h3⟩ := h
  have hruns : s.faceRuns = 0 := h1 htrig
  unfold updateTaskStatusApply
  rcases hact : status.active with _ | _
  · rcases hres : status.result with _ | r
    · simp only [hact, hres, Bool.false_eq_true, if_false]
      exact ⟨by simpa using h1, by simpa using h2, by simpa using h3⟩
    · simp only [hact, hres, Bool.false_eq_true, if_false]
      rcases hfin : r.final_result with _ | _
      · simp only [hfin, Bool.false_and, Bool.false_eq_true, if_false]
        exact ⟨by simpa using h1, by simpa using h2, by simpa using h3⟩
      · simp only [hfin, Bool.true_and]
        simp only [htrig]
        simp only [Bool.not_false, if_true]
        unfold performFaceVerificationUnlatched C1Inv
        split_ifs <;> simp [hruns]
  · simp only [hact, if_true]
    exact ⟨by simpa using h1, by simpa using h2, by simpa using h3⟩

theorem utsApply_passedSeen (s : MState) (status : TaskStatus) :
    (updateTaskStatusApply s status).passedSeen = true →
    s.passedSeen = true ∨ statusTerminalPassed status = true := by
  unfold updateTaskStatusApply
  rcases hact : status.active with _ | _
  · rcases hres : status.result with _ | r
    · intro h
      simp [hact, hres] at h
      exact Or.inl h
    · rcases hfin : r.final_result with _ | _
      · intro h
        simp [hact, hres, hfin] at h
        exact Or.inl h
      · intro _
        right
        unfold statusTerminalPassed
        simp [hact, hres, hfin]
  · intro h
    simp [hact] at h
    exact Or.inl h

theorem utsApply_faceRuns (s : MState) (status : TaskStatus) :
    (updateTaskStatusApply s status).faceRuns ≠ s.faceRuns →
    statusTerminalPassed status = true := by
  unfold updateTaskStatusApply
  rcases hact : status.active with _ | _
  · rcases hres : status.result with _ | r
    · intro h
      simp [hact, hres] at h
    · rcases hfin : r.final_result with _ | _
      · intro h
        simp [hact, hres, hfin] at h
      · intro _
        unfold statusTerminalPassed
        simp [hact, hres, hfin]
  · intro h
    simp [hact] at h

theorem uts_sched_ghost (s : MState) (resp : Option TaskStatus) :
    (updateTaskStatus s resp).processingFrame = s.processingFrame ∧
    (updateTaskStatus s resp).inFlight = s.inFlight ∧
    (updateTaskStatus s resp).framesSubmitted = s.framesSubmitted ∧
    (updateTaskStatus s resp).pendingFaceVerify = s.pendingFaceVerify := by
  unfold updateTaskStatus
  split
  · simp
  · cases resp with
    | none => simp
    | some status => exact utsApply_ghost s status

theorem uts_c1inv (s : MState) (resp : Option TaskStatus)
    (h : C1Inv s) : C1Inv (updateTaskStatus s resp) := by
  unfold updateTaskStatus
  split
  · exact h
  · rename_i hguard
    cases resp with
    | none => exact h
    | some status =>
      have htrig : s.verificationTriggered = false := by
        simp only [Bool.or_eq_true, Bool.not_eq_true, not_or] at hguard
        simpa using hguard.2
      exact utsApply_c1inv s status htrig h

theorem uts_passedSeen (s : MState) (resp : Option TaskStatus) :
    (updateTaskStatus s resp).passedSeen = true →
    s.passedSeen = true ∨ evTerminalPassed (MEvent.poll resp) = true := by
  unfold updateTaskStatus
  split
  · exact fun h => Or.inl h
  · cases resp with
    | none => exact fun h => Or.inl h
    | some status =>
      intro h
      rcases utsApply_passedSeen s status h with h1 | h1
      · exact Or.inl h1
      · right
        simpa [evTerminalPassed] using h1

theorem uts_faceRuns_passed (s : MState) (resp : Option TaskStatus) :
    (updateTaskStatus s resp).faceRuns ≠ s.faceRuns →
    evTerminalPassed (MEvent.poll resp) = true := by
  unfold updateTaskStatus
  split
  · intro h
    exact absurd rfl h
  · cases resp with
    | none => intro h; exact absurd rfl h
    | some status =>
      intro h
      have := utsApply_faceRuns s status h
      simpa [evTerminalPassed] using this

@[simp] theorem resetM_ghost (s : MState) :
    (handleResetM s).processingFrame = s.processingFrame ∧
    (handleResetM s).inFlight = s.inFlight ∧
    (handleResetM s).framesSubmitted = s.framesSubmitted ∧
    (handleResetM s).passedSeen = s.passedSeen ∧
    (handleResetM s).faceRuns = s.faceRuns ∧
    (handleResetM s).pendingFaceVerify = s.pendingFaceVerify := by
  unfold handleResetM
  simp

theorem c1inv_of_fields (s t : MState)
    (e1 : t.verificationTriggered = s.verificationTriggered)
    (e2 : t.faceRuns = s.faceRuns)
    (e3 : t.passedSeen = s.passedSeen)
    (e4 : t.pendingFaceVerify = s.pendingFaceVerify)
    (h : C1Inv s) : C1Inv t := by
  obtain ⟨h1, h2, h3⟩ := h
  refine ⟨?_, ?_, ?_⟩
  · rw [e1, e2]; exact h1
  · rw [e2]; exact h2
  · rw [e3, e2, e4]; exact h3

theorem statusTerminal_disjoint (ts : TaskStatus)
    (h : statusTerminalPassed ts = true) : statusTerminalFailed ts = false := by
  unfold statusTerminalPassed at h
  unfold statusTerminalFailed
  rcases hres : ts.result with _ | r
  · rw [hres] at h
    simp at h
  · rw [hres] at h
    simp_all

theorem stepM_c1inv (s : MState) (e : MEvent) (hne : e ≠ MEvent.reset)
    (h : C1Inv s) : C1Inv (stepM s e) := by
  cases e with
  | tick ready now =>
    have hg := begin_ghost s ready now
    exact c1inv_of_fields s _ hg.1 hg.2.1 hg.2.2.1 hg.2.2.2 h
  | frameDone resp =>
    obtain ⟨h1, h2, h3⟩ := h
    have hg := finish_ghost s resp
    show C1Inv (captureAndProcessFrameFinish s resp)
    refine ⟨?_, ?_, ?_⟩
    · rw [hg.1, hg.2.1]; exact h1
    · rw [hg.2.1]; exact h2
    · intro hp
      cases hsp : s.passedSeen with
      | true =>
        rw [finish_passedSeen_mono s resp hsp] at hp
        exact Bool.noConfusion hp
      | false =>
        have hx := h3 hsp
        refine ⟨?_, ?_⟩
        · rw [hg.2.1]; exact hx.1
        · by_contra hc
          have hpend : (captureAndProcessFrameFinish s resp).pendingFaceVerify = true := by
            cases hb : (captureAndProcessFrameFinish s resp).pendingFaceVerify
            · exact absurd hb hc
            · rfl
          rcases finish_pending s resp hpend with hq | hq
          · rw [hx.2] at hq; exact Bool.noConfusion hq
          · rw [hp] at hq; exact Bool.noConfusion hq
  | poll resp => exact uts_c1inv s resp h
  | faceVerifyTimeout =>
    obtain ⟨h1, h2, h3⟩ := h
    show C1Inv (if s.pendingFaceVerify then
      performFaceVerificationLatched { s with pendingFaceVerify := false } else s)
    by_cases hp : s.pendingFaceVerify
    · simp only [hp, if_true]
      have hpass : s.passedSeen = true := by
        cases hps : s.passedSeen
        · have := (h3 hps).2
          rw [hp] at this
          cases this
        · rfl
      unfold performFaceVerificationLatched
      split_ifs with hi ht
      · exact ⟨by simpa using h1, by simpa using h2,
          fun hx => by simp [hpass] at hx⟩
      · exact ⟨by simpa using h1, by simpa using h2,
          fun hx => by simp [hpass] at hx⟩
      · have htr : s.verificationTriggered = false := by simpa using ht
        have hr0 : s.faceRuns = 0 := h1 htr
        refine ⟨?_, ?_, ?_⟩
        · intro hx; simp at hx
        · simp [hr0]
        · intro hx; simp [hpass] at hx
    · simp only [hp, Bool.false_eq_true, if_false]
      exact ⟨h1, h2, h3⟩
  | reset => exact absurd rfl hne

theorem stepM_schedinv (s : MState) (e : MEvent)
    (h : SchedInv s) : SchedInv (stepM s e) := by
  cases e with
  | tick ready now => exact begin_schedinv s ready now h
  | frameDone resp =>
    show SchedInv (captureAndProcessFrameFinish s resp)
    by_cases hz : s.inFlight = 0
    · rw [finish_inFlight_zero s resp hz]; exact h
    · have hb := finish_busy s resp hz
      unfold SchedInv at h ⊢
      rw [hb.1, hb.2]
      rcases hpf : s.processingFrame with _ | _
      · rw [hpf] at h; simp at h; omega
      · rw [hpf] at h; simp at h; simp [h]
  | poll resp =>
    have hg := uts_sched_ghost s resp
    show SchedInv (updateTaskStatus s resp)
    unfold SchedInv at h ⊢
    rw [hg.1, hg.2.1]; exact h
  | faceVerifyTimeout =>
    show SchedInv (if s.pendingFaceVerify then
      performFaceVerificationLatched { s with pendingFaceVerify := false } else s)
    by_cases hp : s.pendingFaceVerify
    · simp only [hp, if_true]
      unfold SchedInv at h ⊢
      simp [h]
    · simp only [hp, Bool.false_eq_true, if_false]
      exact h
  | reset =>
    show SchedInv (handleResetM s)
    unfold SchedInv at h ⊢
    simpa [handleResetM] using h

theorem stepM_passedSeen (s : MState) (e : MEvent) :
    (stepM s e).passedSeen = true →
    s.passedSeen = true ∨ evTerminalPassed e = true := by
  cases e with
  | tick ready now =>
    intro hx
    left
    have hg := begin_ghost s ready now
    rw [show (stepM s (MEvent.tick ready now)) =
      captureAndProcessFrameBegin s ready now from rfl, hg.2.2.1] at hx
    exact hx
  | frameDone resp => exact finish_passedSeen s resp
  | poll resp => exact uts_passedSeen s resp
  | faceVerifyTimeout =>
    intro hx
    left
    by_cases hp : s.pendingFaceVerify
    · show s.passedSeen = true
      rw [show (stepM s MEvent.faceVerifyTimeout) =
        (if s.pendingFaceVerify then
          performFaceVerificationLatched { s with pendingFaceVerify := false }
        else s) from rfl] at hx
      simp only [hp, if_true] at hx
      simpa using hx
    · rw [show (stepM s MEvent.faceVerifyTimeout) =
        (if s.pendingFaceVerify then
          performFaceVerificationLatched { s with pendingFaceVerify := false }
        else s) from rfl] at hx
      simp only [hp, Bool.false_eq_true, if_false] at hx
      exact hx
  | reset =>
    intro hx
    left
    simpa [handleResetM] using hx

theorem stepM_faceRuns_failed (s : MState) (e : MEvent)
    (hf : evTerminalFailed e = true) :
    (stepM s e).faceRuns = s.faceRuns := by
  cases e with
  | tick ready now => exact (begin_ghost s ready now).2.1
  | frameDone resp => exact (finish_ghost s resp).2.1
  | poll resp =>
    by_contra hc
    have hpass := uts_faceRuns_passed s resp hc
    cases resp with
    | none => simp [evTerminalPassed] at hpass
    | some ts =>
      simp only [evTerminalPassed] at hpass
      simp only [evTerminalFailed] at hf
      rw [statusTerminal_disjoint ts hpass] at hf
      cases hf
  | faceVerifyTimeout => simp [evTerminalFailed] at hf
  | reset => simp [evTerminalFailed] at hf

theorem runM_c1inv (s : MState) (evs : List MEvent) (h : C1Inv s)
    (hnr : MEvent.reset ∉ evs) : C1Inv (runM s evs) := by
  induction evs generalizing s with
  | nil => exact h
  | cons e rest ih =>
    have he : e ≠ MEvent.reset := fun hx => hnr (by rw [← hx]; exact List.mem_cons_self e rest)
    have hr : MEvent.reset ∉ rest := fun hx => hnr (List.mem_cons_of_mem e hx)
    exact ih (stepM s e) (stepM_c1inv s e he h) hr

theorem runM_schedinv (s : MState) (evs : List MEvent) (h : SchedInv s) :
    SchedInv (runM s evs) := by
  induction evs generalizing s with
  | nil => exact h
  | cons e rest ih => exact ih (stepM s e) (stepM_schedinv s e h)

theorem runM_passedSeen (s : MState) (evs : List MEvent) :
    (runM s evs).passedSeen = true →
    s.passedSeen = true ∨ ∃ e ∈ evs, evTerminalPassed e = true := by
  induction evs generalizing s with
  | nil => exact fun h => Or.inl h
  | cons e rest ih =>
    intro h
    rcases ih (stepM s e) h with h1 | h1
    · rcases stepM_passedSeen s e h1 with h2 | h2
      · exact Or.inl h2
      · exact Or.inr ⟨e, List.mem_cons_self e rest, h2⟩
    · obtain ⟨e2, he2, hp2⟩ := h1
      exact Or.inr ⟨e2, List.mem_cons_of_mem e he2, hp2⟩

/-! ## Claim theorems over the machine -/

/-- C1: over every event interleaving of one attempt (no reset) — capture
ticks, frame completions (the frame-embedded observation path), status polls
(the polling-derived observation path) and completion-handler timeouts — the
face match-or-enroll network step runs at most once; when it ran, the latch
is set; it can only have run if some event delivered a terminal judgment with
`final_result = true`; and processing an event that delivers a failed
terminal judgment never changes the run count. -/
theorem C1_enrollment_at_most_once (s : MState) (evs : List MEvent)
    (h1 : s.verificationTriggered = false) (h2 : s.faceRuns = 0)
    (h3 : s.passedSeen = false) (h4 : s.pendingFaceVerify = false)
    (hnr : MEvent.reset ∉ evs) :
    (runM s evs).faceRuns ≤ 1 ∧
    ((runM s evs).faceRuns = 1 → (runM s evs).verificationTriggered = true) ∧
    ((runM s evs).faceRuns = 0 ∨ ∃ e ∈ evs, evTerminalPassed e = true) ∧
    (∀ t : MState, ∀ e : MEvent, evTerminalFailed e = true →
      (stepM t e).faceRuns = t.faceRuns) := by
  have hinv : C1Inv s := ⟨fun _ => h2, by omega, fun _ => ⟨h2, h4⟩⟩
  obtain ⟨k1, k2, k3⟩ := runM_c1inv s evs hinv hnr
  refine ⟨k2, ?_, ?_, ?_⟩
  · intro hx
    cases ht : (runM s evs).verificationTriggered
    · have h0 := k1 ht
      rw [hx] at h0
      exact absurd h0 (by omega)
    · rfl
  · cases hr : (runM s evs).faceRuns with
    | zero => exact Or.inl rfl
    | succ n =>
      have hps : (runM s evs).passedSeen = true := by
        cases hp : (runM s evs).passedSeen
        · have h0 := (k3 hp).1
          rw [hr] at h0
          exact absurd h0 (by omega)
        · rfl
      rcases runM_passedSeen s evs hps with hq | hq
      · rw [h3] at hq
        exact Bool.noConfusion hq
      · exact Or.inr hq
  · intro t e hf
    exact stepM_faceRuns_failed t e hf

/-- Witness for C1 at a concrete attempt: a single passed-terminal poll. -/
theorem C1_enrollment_at_most_once_witness :
    (runM { sessionId := some "sid-1", capturedImage := some "img" }
          [MEvent.poll (some terminalPassedStatus)]).faceRuns ≤ 1 ∧
    ((runM { sessionId := some "sid-1", capturedImage := some "img" }
          [MEvent.poll (some terminalPassedStatus)]).faceRuns = 1 →
      (runM { sessionId := some "sid-1", capturedImage := some "img" }
          [MEvent.poll (some terminalPassedStatus)]).verificationTriggered = true) ∧
    ((runM { sessionId := some "sid-1", capturedImage := some "img" }
          [MEvent.poll (some terminalPassedStatus)]).faceRuns = 0 ∨
      ∃ e ∈ [MEvent.poll (some terminalPassedStatus)], evTerminalPassed e = true) ∧
    (∀ t : MState, ∀ e : MEvent, evTerminalFailed e = true →
      (stepM t e).faceRuns = t.faceRuns) :=
  C1_enrollment_at_most_once
    { sessionId := some "sid-1", capturedImage := some "img" }
    [MEvent.poll (some terminalPassedStatus)] rfl rfl rfl rfl (by decide)

/-- C3: for every event trace from a quiescent scheduler state, at most one
frame submission is in flight; a tick while busy, or while the capture
source is not ready, is a no-op; and the completion of an in-flight
submission (success or failure alike) clears the busy flag. -/
theorem C3_single_inflight (s : MState) (evs : List MEvent)
    (h : SchedInv s) :
    (runM s evs).inFlight ≤ 1 ∧
    (∀ t : MState, ∀ ready : Bool, ∀ now : Nat, t.processingFrame = true →
      stepM t (MEvent.tick ready now) = t) ∧
    (∀ t : MState, ∀ now : Nat, stepM t (MEvent.tick false now) = t) ∧
    (∀ t : MState, ∀ resp : Option FrameResp, t.inFlight ≠ 0 →
      (stepM t (MEvent.frameDone resp)).processingFrame = false ∧
      (stepM t (MEvent.frameDone resp)).inFlight = t.inFlight - 1) := by
  have hinv := runM_schedinv s evs h
  unfold SchedInv at hinv
  refine ⟨?_, ?_, ?_, ?_⟩
  · rw [hinv]
    split <;> omega
  · intro t ready now ht
    exact begin_busy_id t ready now ht
  · intro t now
    exact begin_notready_id t now
  · intro t resp hne
    exact finish_busy t resp hne

/-- Witness for C3 at a concrete trace: tick, completion, tick. -/
theorem C3_single_inflight_witness :
    (runM startedState
        [MEvent.tick true 100, MEvent.frameDone none, MEvent.tick true 200]).inFlight ≤ 1 ∧
    (∀ t : MState, ∀ ready : Bool, ∀ now : Nat, t.processingFrame = true →
      stepM t (MEvent.tick ready now) = t) ∧
    (∀ t : MState, ∀ now : Nat, stepM t (MEvent.tick false now) = t) ∧
    (∀ t : MState, ∀ resp : Option FrameResp, t.inFlight ≠ 0 →
      (stepM t (MEvent.frameDone resp)).processingFrame = false ∧
      (stepM t (MEvent.frameDone resp)).inFlight = t.inFlight - 1) :=
  C3_single_inflight startedState
    [MEvent.tick true 100, MEvent.frameDone none, MEvent.tick true 200] rfl

/-- C5: evaluating the machine at a concrete mid-attempt state.  After the
polling path observes a passed terminal judgment (`verificationComplete`
becomes true), the frame interval is still active and the next capture tick
still submits a frame: neither `captureAndProcessFrame` variant consults the
terminal state, and the tsx variant never clears the frame interval on
termination, contradicting the specified immediate stop. -/
theorem C5_frames_after_terminal_eval :
    ((stepM startedState (MEvent.poll (some terminalPassedStatus))).verificationComplete = true) ∧
    ((stepM startedState (MEvent.poll (some terminalPassedStatus))).frameLoopActive = true) ∧
    ((stepM (stepM startedState (MEvent.poll (some terminalPassedStatus)))
        (MEvent.tick true 100)).framesSubmitted
      = (stepM startedState (MEvent.poll (some terminalPassedStatus))).framesSubmitted + 1) := by
  decide

/-! ## Attempt-start lemmas and claims C4, C7, C8 -/

theorem createSession_ok_iff (s : MState) (resp : Except String SessionResp) :
    (createSession s resp).2 = sessionRespOkWithId resp := by
  unfold createSession sessionRespOkWithId
  rcases resp with e | d
  · rfl
  · by_cases hc : (d.success && truthy d.session_id) = true
    · simp [hc]
    · simp only [Bool.not_eq_true] at hc
      simp [hc]

theorem createSession_fail_error (s : MState) (resp : Except String SessionResp)
    (h : sessionRespOkWithId resp = false) :
    ((createSession s resp).1).error.isSome = true := by
  unfold createSession
  unfold sessionRespOkWithId at h
  rcases resp with e | d
  · simp
  · change (d.success && truthy d.session_id) = false at h
    simp [h]

theorem handleStart_camera (s : MState) (env : StartEnv) :
    (handleStart s env).cameraRequested = sessionRespOkWithId env.sessionResp := by
  unfold handleStart
  rw [← createSession_ok_iff { s with error := none } env.sessionResp]
  rcases hcs : createSession { s with error := none } env.sessionResp with ⟨s1, ok⟩
  rcases ok with _ | _
  · rfl
  · by_cases hcam : env.cameraOk <;> simp [hcam]

theorem handleStart_fail (s : MState) (env : StartEnv)
    (hbad : sessionRespOkWithId env.sessionResp = false) :
    (handleStart s env).cameraRequested = false ∧
    (handleStart s env).state.error.isSome = true ∧
    (handleStart s env).frameLoopStarted = false := by
  have hok := createSession_ok_iff { s with error := none } env.sessionResp
  have herr := createSession_fail_error { s with error := none } env.sessionResp hbad
  unfold handleStart
  rcases hcs : createSession { s with error := none } env.sessionResp with ⟨s1, ok⟩
  rw [hcs] at hok herr
  rw [hbad] at hok
  subst hok
  exact ⟨rfl, herr, rfl⟩

theorem startLiveness_fail (s : MState) (env2 : LStartEnv)
    (hbad : sessionRespSuccess env2.sessionResp = false) :
    (startLiveness s env2).cameraRequested = false ∧
    (startLiveness s env2).state.error.isSome = true ∧
    (startLiveness s env2).challengeStarted = false := by
  unfold startLiveness
  unfold sessionRespSuccess at hbad
  rcases henv : env2.sessionResp with e | d
  · simp
  · rw [henv] at hbad
    change d.success = false at hbad
    simp [hbad]

/-- C4 counterexample: in the `part_000` variant, a create-session response
with `success = true` but no `session_id` still requests the camera,
proceeds to the challenge start, and leaves no session identifier — the
variant only checks the success flag. -/
theorem C4_missing_id_requests_camera :
    (startLiveness {} noIdEnv).cameraRequested = true ∧
    (startLiveness {} noIdEnv).state.sessionId = none ∧
    (startLiveness {} noIdEnv).challengeStarted = true ∧
    (startLiveness {} noIdEnv).state.error = none := by
  decide

/-- C4 amended: in the tsx variant (`handleStart`), a failed create-session
round trip or a missing/empty identifier aborts the attempt with a surfaced
error before any camera access and before the frame loop starts, and camera
access is only requested when a truthy identifier was obtained; in the
`part_000` variant (`startLiveness`), a failed success flag (or a thrown
request) aborts before camera and challenge work, but a successful response
lacking an identifier is not caught there. -/
theorem C4_session_failure_aborts (s : MState) (env : StartEnv)
    (env2 : LStartEnv) :
    (sessionRespOkWithId env.sessionResp = false →
      (handleStart s env).cameraRequested = false ∧
      (handleStart s env).state.error.isSome = true ∧
      (handleStart s env).frameLoopStarted = false) ∧
    ((handleStart s env).cameraRequested = true →
      sessionRespOkWithId env.sessionResp = true) ∧
    (sessionRespSuccess env2.sessionResp = false →
      (startLiveness s env2).cameraRequested = false ∧
      (startLiveness s env2).state.error.isSome = true ∧
      (startLiveness s env2).challengeStarted = false) :=
  ⟨fun hbad => handleStart_fail s env hbad,
   fun hcam => by rw [← handleStart_camera s env]; exact hcam,
   fun hbad => startLiveness_fail s env2 hbad⟩

/-- Witness for C4 at concrete failing environments. -/
theorem C4_session_failure_aborts_witness :
    ((handleStart {} failStartEnv).cameraRequested = false ∧
     (handleStart {} failStartEnv).state.error.isSome = true ∧
     (handleStart {} failStartEnv).frameLoopStarted = false) ∧
    ((startLiveness {} failLStartEnv).cameraRequested = false ∧
     (startLiveness {} failLStartEnv).state.error.isSome = true ∧
     (startLiveness {} failLStartEnv).challengeStarted = false) :=
  ⟨(C4_session_failure_aborts {} failStartEnv failLStartEnv).1 (by decide),
   (C4_session_failure_aborts {} failStartEnv failLStartEnv).2.2 (by decide)⟩

/-- C7: `handleReset` from any state clears the completion-trigger latch,
the reference image, the tracked challenge status, the remembered
speech-deduplication description, both completion flags, the reported
result and the error, without emitting any utterance. -/
theorem C7_reset_clears_state (u : TsxUI) :
    (handleResetRender u).verificationTriggered = false ∧
    (handleResetRender u).capturedImage = none ∧
    (handleResetRender u).taskStatus = none ∧
    (handleResetRender u).prevDesc = none ∧
    (handleResetRender u).isTaskActive = false ∧
    (handleResetRender u).verificationComplete = false ∧
    (handleResetRender u).faceResult = none ∧
    (handleResetRender u).error = none ∧
    (handleResetRender u).spokenLog = u.spokenLog := by
  unfold handleResetRender speechEffect taskDesc
  by_cases hp : (none : Option String) = u.prevDesc
  · simp [← hp]
  · simp [hp]

/-- C8 counterexample: in the tsx variant a single failed frame submission
sets the user-visible error message "Frame processing failed" (rendered in
the error box of the component), starting from a state with no error shown. -/
theorem C8_transient_error_shown :
    (captureAndProcessFrameFinishTsx inFlightState none).error =
      some "Frame processing failed" ∧
    inFlightState.error = none := by
  decide

/-- C8 amended: a failed frame submission is swallowed at the tick level in
both variants — the busy flag is cleared, the frame loop and the status
polling are left running, and the completion-handler run count is untouched;
in the `part_000` variant no user-visible message is set (the catch only
logs), while the tsx variant sets the user-visible "Frame processing failed"
message. -/
theorem C8_transient_swallowed_amended (s : MState) (h : s.inFlight ≠ 0) :
    (captureAndProcessFrameFinishTsx s none).processingFrame = false ∧
    (captureAndProcessFrameFinishTsx s none).frameLoopActive = s.frameLoopActive ∧
    (captureAndProcessFrameFinishTsx s none).statusPolling = s.statusPolling ∧
    (captureAndProcessFrameFinishTsx s none).error = some "Frame processing failed" ∧
    (captureAndProcessFrameFinish s none).processingFrame = false ∧
    (captureAndProcessFrameFinish s none).inFlight = s.inFlight - 1 ∧
    (captureAndProcessFrameFinish s none).error = s.error ∧
    (captureAndProcessFrameFinish s none).frameLoopActive = s.frameLoopActive ∧
    (captureAndProcessFrameFinish s none).statusPolling = s.statusPolling ∧
    (captureAndProcessFrameFinish s none).faceRuns = s.faceRuns := by
  have hp0 : captureAndProcessFrameFinish s none =
      { s with inFlight := s.inFlight - 1, processingFrame := false } := by
    unfold captureAndProcessFrameFinish
    split
    · omega
    · rfl
  have htsx : captureAndProcessFrameFinishTsx s none =
      { s with inFlight := s.inFlight - 1,
               error := some "Frame processing failed",
               processingFrame := false } := by
    unfold captureAndProcessFrameFinishTsx
    split
    · omega
    · rfl
  rw [hp0, htsx]
  simp

/-- Witness for C8 with one submission in flight. -/
theorem C8_transient_swallowed_amended_witness :
    (captureAndProcessFrameFinishTsx inFlightState none).processingFrame = false ∧
    (captureAndProcessFrameFinishTsx inFlightState none).frameLoopActive = inFlightState.frameLoopActive ∧
    (captureAndProcessFrameFinishTsx inFlightState none).statusPolling = inFlightState.statusPolling ∧
    (captureAndProcessFrameFinishTsx inFlightState none).error = some "Frame processing failed" ∧
    (captureAndProcessFrameFinish inFlightState none).processingFrame = false ∧
    (captureAndProcessFrameFinish inFlightState none).inFlight = inFlightState.inFlight - 1 ∧
    (captureAndProcessFrameFinish inFlightState none).error = inFlightState.error ∧
    (captureAndProcessFrameFinish inFlightState none).frameLoopActive = inFlightState.frameLoopActive ∧
    (captureAndProcessFrameFinish inFlightState none).statusPolling = inFlightState.statusPolling ∧
    (captureAndProcessFrameFinish inFlightState none).faceRuns = inFlightState.faceRuns :=
  C8_transient_swallowed_amended inFlightState (by decide)

/-! ## Claims C6 and C9 -/

/-- C6: with a reference image present, the completion handler first submits
the search call; every call it makes is either the single search or the
single enroll call (no retries, no challenge re-run); a matched search
response yields exactly the search call and a `Matched`-shaped result with
the returned identity and confidence; an unmatched search followed by a
successful enroll yields exactly one enroll call under the freshly generated
`User_<seed>` name and an `Enrolled`-shaped result; and a thrown search or
enroll call yields no result and the distinct
"Face verification failed: …" pipeline error. -/
theorem C6_search_then_enroll (i : String) (hi : i ≠ "") (seed : Nat)
    (env : FaceEnv) :
    ((performFaceVerification (some i) seed env).calls.head? = some FaceCall.search) ∧
    (∀ c ∈ (performFaceVerification (some i) seed env).calls,
        c = FaceCall.search ∨ c = FaceCall.add) ∧
    ((performFaceVerification (some i) seed env).calls.count FaceCall.search ≤ 1) ∧
    ((performFaceVerification (some i) seed env).calls.count FaceCall.add ≤ 1) ∧
    (∀ sd : SearchResp, env.searchResp = Except.ok sd →
      truthy sd.matched_user_id = true →
      (performFaceVerification (some i) seed env).calls = [FaceCall.search] ∧
      (performFaceVerification (some i) seed env).result = some
        { success := true, matchFound := true, isNewUser := false,
          data := { vectorId := sd.matched_user_id.getD "",
                    confidence := sd.confidence.getD 0,
                    userName := orTruthy sd.user_name "Existing User" } } ∧
      (performFaceVerification (some i) seed env).error = none) ∧
    (∀ sd : SearchResp, ∀ ad : AddResp, env.searchResp = Except.ok sd →
      truthy sd.matched_user_id = false → env.addResp = Except.ok ad →
      (performFaceVerification (some i) seed env).calls =
        [FaceCall.search, FaceCall.add] ∧
      (performFaceVerification (some i) seed env).result = some
        { success := true, matchFound := false, isNewUser := true,
          data := { vectorId := (ad.data.bind AddRespData.person_id).getD "",
                    confidence := 1,
                    userName := "User_" ++ toString seed } } ∧
      (performFaceVerification (some i) seed env).error = none) ∧
    (∀ e : String, env.searchResp = Except.error e →
      (performFaceVerification (some i) seed env).result = none ∧
      (performFaceVerification (some i) seed env).error =
        some ("Face verification failed: " ++ e)) ∧
    (∀ sd : SearchResp, ∀ e : String, env.searchResp = Except.ok sd →
      truthy sd.matched_user_id = false → env.addResp = Except.error e →
      (performFaceVerification (some i) seed env).result = none ∧
      (performFaceVerification (some i) seed env).error =
        some ("Face verification failed: " ++ e)) := by
  have htr : truthy (some i) = true := by simpa [truthy] using hi
  unfold performFaceVerification
  rcases hs : env.searchResp with e | sd
  · simp_all
  · by_cases hm : truthy sd.matched_user_id
    · simp_all
    · rcases ha : env.addResp with e2 | ad
      · simp_all
      · simp_all

/-- Witness for C6: the unmatched-search branch enrolls exactly once. -/
theorem C6_search_then_enroll_witness :
    (performFaceVerification (some "img") 7 unmatchedEnv).calls =
      [FaceCall.search, FaceCall.add] ∧
    (performFaceVerification (some "img") 7 unmatchedEnv).result = some
      { success := true, matchFound := false, isNewUser := true,
        data :=
          { vectorId :=
              (((some { person_id := some "pid-2" } : Option AddRespData)).bind
                  AddRespData.person_id).getD "",
            confidence := 1, userName := "User_" ++ toString 7 } } ∧
    (performFaceVerification (some "img") 7 unmatchedEnv).error = none :=
  (C6_search_then_enroll "img" (by decide) 7 unmatchedEnv).2.2.2.2.2.1
    { matched_user_id := none } { data := some { person_id := some "pid-2" } }
    rfl (by decide) rfl

/-- C9 counterexample: an active task with a brand-new description that maps
to no recognized instruction ("Blink your eyes") triggers no voice prompt at
all, so a new description is not always spoken exactly once. -/
theorem C9_unrecognized_desc_not_spoken :
    taskDesc (some blinkStatus) ≠ ({} : TsxUI).prevDesc ∧
    blinkStatus.active = true ∧
    (setTaskStatusRender {} blinkStatus).spokenLog = [] := by
  decide

/-- C9 amended: for a status update carrying an active current task, a
repeated identical description never re-triggers speech (description
equality is the de-duplication key); an update triggers at most one
utterance; a new description whose mirrored text maps to a recognized
instruction is spoken exactly once; and a new description mapping to no
recognized instruction is not spoken. -/
theorem C9_speech_dedup_amended (u : TsxUI) (ts : TaskStatus)
    (ct : CurrentTask) (ha : ts.active = true)
    (hc : ts.current_task = some ct) :
    (some ct.description = u.prevDesc →
      (setTaskStatusRender u ts).spokenLog = u.spokenLog) ∧
    ((setTaskStatusRender u ts).spokenLog.length ≤ u.spokenLog.length + 1) ∧
    (some ct.description ≠ u.prevDesc →
      getVoiceText (getDisplayTask ct.description) ≠ "" →
      (setTaskStatusRender u ts).spokenLog =
        u.spokenLog ++ [getVoiceText (getDisplayTask ct.description)]) ∧
    (some ct.description ≠ u.prevDesc →
      getVoiceText (getDisplayTask ct.description) = "" →
      (setTaskStatusRender u ts).spokenLog = u.spokenLog) := by
  unfold setTaskStatusRender speechEffect taskDesc
  by_cases hd : some ct.description = u.prevDesc
  · simp [hc, hd, ha]
  · by_cases hv : getVoiceText (getDisplayTask ct.description) = ""
    · simp [hc, hd, ha, hv]
    · simp [hc, hd, ha, hv]

/-- Witness for C9: a fresh "Look Down" task is spoken exactly once. -/
theorem C9_speech_dedup_amended_witness :
    (setTaskStatusRender {} lookDownStatus).spokenLog =
      ([] : List String) ++
        [getVoiceText (getDisplayTask lookDownTask.description)] :=
  (C9_speech_dedup_amended {} lookDownStatus lookDownTask rfl rfl).2.2.1
    (by decide) (by decide)

end FaceVerif
